import Mathlib

/-! Shallow embedding of the core of the viewtradingapp repository:
the position sizer, balance fetch and instrument-mapping caches
(`core_logic.py`), the watchlist reconciler and batched quote fetch
(`watchlist_helpers.py`), and the order payload builder
(`core_logic.py`).  Python floats are modelled as exact rationals,
Python dicts as association lists or `Option`-valued maps, and raised
exceptions as an explicit error constructor. -/

namespace ViewTrading

/-- Python exceptions that the embedded code can raise. -/
inductive PyError where
  | zeroDivision
  | valueError (msg : String)
deriving DecidableEq

/-- Result of running an embedded Python function: a value, or an
uncaught exception. -/
inductive PyResult (α : Type) where
  | ok (a : α)
  | exn (e : PyError)
deriving DecidableEq

/-- Python `int()` applied to a float: truncation toward zero. -/
def pyInt (q : ℚ) : ℤ := if 0 ≤ q then ⌊q⌋ else ⌈q⌉

/-- Python `str.upper()` for the ASCII strings this code handles. -/
def pyStrUpper (s : String) : String := String.mk (s.data.map Char.toUpper)

/-- Python `str.strip()`: drop leading and trailing whitespace. -/
def pyStrip (s : String) : String :=
  String.mk (((s.data.dropWhile Char.isWhitespace).reverse.dropWhile
    Char.isWhitespace).reverse)

/-- A value handed to `calculate_position_size_mixed`: a number, or
something that `float()` rejects with an exception. -/
inductive PyVal where
  | num (q : ℚ)
  | nonNumeric
deriving DecidableEq

/-- Python `float(v)`: succeeds exactly on numeric values. -/
def pyFloat : PyVal → Option ℚ
  | .num q => some q
  | .nonNumeric => none

/-- Python truthiness of an optional float (`None` and `0.0` are falsy). -/
def pyTruthy : Option ℚ → Bool
  | none => false
  | some v => v != 0

/-- Python `x or y` on optional floats. -/
def pyOrOpt (x y : Option ℚ) : Option ℚ := if pyTruthy x then x else y

/-- Shape of the `data` object inside a fund-limits response
(`core_logic.py` lines 188-191); the source probes the two spellings
`availableBalance` and `availabelBalance`, each possibly absent. -/
structure FundData where
  availableBalance : Option ℚ
  availabelBalance : Option ℚ
deriving DecidableEq

/-- Environment seen by one `get_available_balance` call. -/
inductive FundResp where
  | noClient            -- `dhan is None`
  | raised              -- `dhan.get_fund_limits()` raised; caught and logged
  | notDict             -- response was not a dict: falls through to `return 0.0`
  | resp (d : FundData) -- a dict response carrying a `data` payload
deriving DecidableEq

/-- `get_available_balance` (`core_logic.py` lines 183-194): returns the
truthy balance field, and 0.0 on a missing client, a raised exception,
a non-dict response or a falsy balance.  It never raises. -/
def get_available_balance : FundResp → ℚ
  | .noClient => 0
  | .raised => 0
  | .notDict => 0
  | .resp d =>
      let bal := pyOrOpt d.availableBalance d.availabelBalance
      if pyTruthy bal then bal.getD 0 else 0

/-- Module-level leverage caches plus the broker environment that one
sizer call observes. -/
structure SizerEnv where
  leverage_cache : ℤ → Option ℚ
  mtf_leverage_cache : ℤ → Option ℚ
  fundResp : FundResp

/-- `(productType or "INTRADAY").upper()` (`core_logic.py` line 209):
`None` and the empty string are falsy. -/
def pyUpperDefault : Option String → String
  | none => pyStrUpper "INTRADAY"
  | some t => pyStrUpper (if t = "" then "INTRADAY" else t)

/-- `max_loss` selection (`core_logic.py` line 210). -/
def maxLossFor (ptype : String) : ℚ := if ptype = "INTRADAY" then 1000 else 1500

/-- Leverage selection (`core_logic.py` lines 213-217): `dict.get` with
default 1.0; product types other than INTRADAY and MARGIN keep the
initial 1.0. -/
def leverageFor (ptype : String) (sec_id : ℤ) (env : SizerEnv) : ℚ :=
  if ptype = "INTRADAY" then (env.leverage_cache sec_id).getD 1
  else if ptype = "MARGIN" then (env.mtf_leverage_cache sec_id).getD 1
  else 1

/-- `calculate_position_size_mixed` (`core_logic.py` lines 199-227).
Returns `(quantity, expected_loss, exposure, leverage, fund)`.  The
`try/except` around the three `float()` conversions yields the all-zero
result on any non-numeric input; the division `eff_fund / price` raises
`ZeroDivisionError` when `price` is zero. -/
def calculate_position_size_mixed (price entry sl_price : PyVal) (sec_id : ℤ)
    (productType : Option String) (env : SizerEnv) :
    PyResult (ℤ × ℚ × ℚ × ℚ × ℚ) :=
  match pyFloat price, pyFloat entry, pyFloat sl_price with
  | some price, some entry, some sl_price =>
    let sl_point := |entry - sl_price|
    if sl_point = 0 then .ok (0, 0, 0, 1, get_available_balance env.fundResp)
    else
      let ptype := pyUpperDefault productType
      let qty_by_risk := pyInt (maxLossFor ptype / sl_point)
      let leverage := leverageFor ptype sec_id env
      let fund := get_available_balance env.fundResp
      let eff_fund := fund * leverage
      if price = 0 then .exn .zeroDivision
      else
        let qty_by_fund := pyInt (eff_fund / price)
        let quantity := min qty_by_risk qty_by_fund
        .ok (quantity, (quantity : ℚ) * sl_point, (quantity : ℚ) * price,
             leverage, fund)
  | _, _, _ => .ok (0, 0, 0, 1, 0)

/-! Instrument-mapping caches (`core_logic.py` lines 89-144).  The
`_mapping_cache` dict is modelled as an association list whose head is
the most recent write; `dlookup` returns the latest write for a key,
and dict truthiness is list non-emptiness.  The two leverage dicts,
keyed by instrument id, are modelled as `Option`-valued maps. -/

/-- A CSV cell as the row processing sees it. -/
inductive CellVal where
  | missing   -- column absent: the `.get` default applies
  | num (q : ℚ)
  | bad       -- present but `float()` raises on it
deriving DecidableEq

/-- One row of `mapping.csv` or of the master stocklist.
`instrumentId = none` models a row whose `int(row["Instrument ID"])`
raises (missing or non-numeric), which the source skips. -/
structure MapRow where
  stockName : String
  instrumentId : Option ℤ
  misLeverage : CellVal
  mtfLeverage : CellVal

/-- The module-level caches mutated by `build_mapping_caches`. -/
structure Caches where
  mapping : List (String × ℤ)
  leverage : ℤ → Option ℚ
  mtfLev : ℤ → Option ℚ

/-- Pointwise update of an `Option`-valued map (a Python dict write). -/
def upd {α β : Type} [DecidableEq α] (m : α → Option β) (k : α) (v : β) :
    α → Option β :=
  fun x => if x = k then some v else m x

/-- Dict lookup in the association-list model: latest write wins. -/
def dlookup (m : List (String × ℤ)) (k : String) : Option ℤ :=
  (m.find? (fun p => p.1 == k)).map (fun p => p.2)

/-- `str(row.get("Stock Name", "")).strip().upper()` (lines 115, 130). -/
def keyOf (r : MapRow) : String := pyStrUpper (pyStrip r.stockName)

/-- `float(row.get(col, dflt))`: the default if the column is missing,
`none` if the conversion raises. -/
def parseCell (c : CellVal) (dflt : ℚ) : Option ℚ :=
  match c with
  | .missing => some dflt
  | .num q => some q
  | .bad => none

/-- Body of the per-row loop over the primary mapping table
(`core_logic.py` lines 113-121).  The mapping write happens before the
leverage conversions, so a row whose MIS_LEVERAGE value raises still
leaves its mapping entry behind (the `except` just continues). -/
def processPrimaryRow (st : Caches) (r : MapRow) : Caches :=
  match r.instrumentId with
  | none => st
  | some inst =>
    let st1 : Caches := { st with mapping := (keyOf r, inst) :: st.mapping }
    match parseCell r.misLeverage 1 with
    | none => st1
    | some mval =>
      let st2 : Caches := { st1 with leverage := upd st1.leverage inst mval }
      match parseCell r.mtfLeverage mval with
      | none => st2
      | some tval => { st2 with mtfLev := upd st2.mtfLev inst tval }

/-- Body of the per-row loop over the fallback master table
(`core_logic.py` lines 128-138): identical to the primary body except
that a symbol already present in the mapping cache is skipped. -/
def processMasterRow (st : Caches) (r : MapRow) : Caches :=
  if (dlookup st.mapping (keyOf r)).isSome then st else processPrimaryRow st r

/-- `build_mapping_caches` (`core_logic.py` lines 104-141).
`df_map = none` models a failed primary load (`load_mapping_from_s3`
returned `None`); `df_master = none` models the fallback fetch raising
before its loop runs.  Note the function never clears the existing
caches. -/
def build_mapping_caches (force_reload : Bool)
    (df_map df_master : Option (List MapRow)) (st : Caches) : Caches :=
  if !st.mapping.isEmpty && !force_reload then st
  else
    let st1 := match df_map with
      | none => st
      | some rows => rows.foldl processPrimaryRow st
    match df_master with
    | none => st1
    | some rows => rows.foldl processMasterRow st1

/-- First-some choice on options (used to state cache lookups). -/
def oalt {α : Type} (x y : Option α) : Option α :=
  match x with
  | some v => some v
  | none => y

/-- The mapping write a single row performs, if any. -/
def writeOf (r : MapRow) (s : String) : Option ℤ :=
  if keyOf r = s then r.instrumentId else none

/-- Last valid mapping write for a symbol in a row list. -/
def lastWrite : List MapRow → String → Option ℤ
  | [], _ => none
  | r :: rs, s => oalt (lastWrite rs s) (writeOf r s)

/-- First valid mapping write for a symbol in a row list. -/
def firstWrite : List MapRow → String → Option ℤ
  | [], _ => none
  | r :: rs, s => oalt (writeOf r s) (firstWrite rs s)

/-! Live quotes and the watchlist reconciler
(`watchlist_helpers.py` lines 155-205). -/

/-- The `ohlc` sub-dict of a live quote; each key may be absent. -/
structure OhlcData where
  high : Option ℚ
  low : Option ℚ
  close : Option ℚ
deriving DecidableEq

/-- One instrument's live quote payload. -/
structure LiveQuoteData where
  last_price : Option ℚ
  ohlc : Option OhlcData
deriving DecidableEq

/-- The four fields `fetch_live_quote` produces. -/
structure QuoteFields where
  LTP : ℚ
  High : ℚ
  Low : ℚ
  pctChange : ℚ   -- the "% Change" key
deriving DecidableEq

/-- Banker's rounding to an integer, as Python `round` on a half-way
value rounds to the even neighbour. -/
def roundHalfEven (q : ℚ) : ℤ :=
  let f := ⌊q⌋
  let r := q - f
  if r < 1/2 then f
  else if 1/2 < r then f + 1
  else if f % 2 = 0 then f else f + 1

/-- Python `round(x, 2)` modelled over exact rationals. -/
def pyRound2 (q : ℚ) : ℚ := (roundHalfEven (q * 100) : ℚ) / 100

/-- `fetch_live_quote` (`watchlist_helpers.py` lines 159-174).
`mapping` maps a symbol to its optional instrument id
(`mapping.get(symbol, {}).get("Instrument ID")`); a falsy id (absent or
zero) short-circuits to the zero quote.  `live_data = none` covers the
falsy cases of `live_data` (`None` or the empty dict). -/
def fetch_live_quote (mapping : String → Option ℤ)
    (live_data : Option (ℤ → Option LiveQuoteData)) (symbol : String) :
    QuoteFields :=
  match mapping symbol with
  | none => ⟨0, 0, 0, 0⟩
  | some instrument_id =>
    if instrument_id = 0 then ⟨0, 0, 0, 0⟩
    else
      match live_data with
      | none => ⟨0, 0, 0, 0⟩
      | some ld =>
        match ld instrument_id with
        | none => ⟨0, 0, 0, 0⟩
        | some d =>
          let ltp := d.last_price.getD 0
          let high := match d.ohlc with | none => ltp | some o => o.high.getD ltp
          let low := match d.ohlc with | none => ltp | some o => o.low.getD ltp
          let prev_close :=
            match d.ohlc with | none => ltp | some o => o.close.getD ltp
          let pct := if prev_close ≠ 0
            then pyRound2 ((ltp - prev_close) / prev_close * 100) else 0
          ⟨ltp, high, low, pct⟩

/-- One watchlist row.  `entryPrice` and the quote fields hold the
numeric value `float(x or 0)` would produce. -/
structure WatchRow where
  stockName : String
  entryPrice : ℚ
  LTP : ℚ
  High : ℚ
  Low : ℚ
  pctChange : ℚ
  Time : String
  Breakout : String
  Action : String
deriving DecidableEq

/-- Body of the per-row loop of `update_quotes_and_breakouts`
(`watchlist_helpers.py` lines 195-203), with `now` the wall-clock
string `datetime.now().strftime(...)` would give.  `row.update(quote)`
overwrites the four quote-derived fields; `x or 0` on a numeric value
is the value itself (with `0.0` mapping to `0`). -/
def updateWatchRow (now : String) (q : QuoteFields) (row : WatchRow) :
    WatchRow :=
  let row1 : WatchRow :=
    { row with LTP := q.LTP, High := q.High, Low := q.Low,
               pctChange := q.pctChange }
  let breakout := if row1.LTP > row1.entryPrice then "YES" else "NO"
  let row2 : WatchRow := { row1 with Breakout := breakout }
  let row3 : WatchRow :=
    if row2.Action ≠ "AUTO_BUYED"
    then { row2 with Action := if breakout = "YES" then "BUY" else "" }
    else row2
  if breakout = "YES" ∧ row3.Action ≠ "AUTO_BUYED"
  then { row3 with Time := now } else row3

/-- `update_quotes_and_breakouts` (`watchlist_helpers.py` lines
191-205) without its S3 load/save side effects: the in-place mutation
of each row becomes a map over the list. -/
def update_quotes_and_breakouts (now : String) (mapping : String → Option ℤ)
    (live_data : Option (ℤ → Option LiveQuoteData))
    (data : List WatchRow) : List WatchRow :=
  data.map (fun row =>
    updateWatchRow now (fetch_live_quote mapping live_data row.stockName) row)

/-- `batch_list` (`watchlist_helpers.py` lines 155-157): slices of at
most `n` elements.  The source's generator, stepped with `n = 0`,
would raise; this model returns no batches in that unused case. -/
def batch_list {α : Type} (l : List α) (n : ℕ) : List (List α) :=
  if h : l.isEmpty ∨ n = 0 then []
  else l.take n :: batch_list (l.drop n) n
termination_by l.length
decreasing_by
  rcases not_or.mp h with ⟨h1, h2⟩
  simp only [List.isEmpty_iff] at h1
  have hl : 0 < l.length := List.length_pos.mpr h1
  simpa using Nat.sub_lt hl (Nat.pos_of_ne_zero h2)

/-- `fetch_live_data` (`watchlist_helpers.py` lines 176-189).
`provider batch` models `dhan.quote_data(...)` together with the
unwrapping of its `data.data.NSE_EQ` dict into key/value pairs (keys
already via `int(k)`); `.exn` covers any exception inside the per-batch
`try`.  A failed batch is logged and skipped; `time.sleep` has no
observable effect here.  `dhanUp = false` is `dhan is None`. -/
def fetch_live_data (dhanUp : Bool)
    (provider : List ℤ → PyResult (List (ℤ × LiveQuoteData)))
    (instrument_ids : List ℤ) : ℤ → Option LiveQuoteData :=
  if dhanUp then
    (batch_list instrument_ids 1000).foldl
      (fun live_data batch =>
        match provider batch with
        | .ok kvs => kvs.foldl (fun m kv => upd m kv.1 kv.2) live_data
        | .exn _ => live_data)
      (fun _ => none)
  else fun _ => none

/-! Order payload builder (`core_logic.py` lines 254-293) and the
form-data construction of `place_order` (lines 313-321).  The provider
constants `dhan.BUY`, `dhan.MARKET`, ... are attributes of the external
SDK and are kept abstract. -/

/-- The provider constants the payload builder copies in. -/
structure DhanConsts where
  BUY : String
  SELL : String
  MARKET : String
  LIMIT : String
  SL : String
  INTRA : String
  CNC : String
  MARGIN : String
  NSE : String

/-- The `form_data` dict `create_order_payload` consumes.  The two
price fields are optional because the source reads them with
`form_data.get(...) or 0`. -/
structure OrderFormData where
  symbol : String
  order_type : String
  transaction_type : String
  productType : String
  qty : ℤ
  limit_price : Option ℚ
  trigger_price : Option ℚ

/-- The payload dict.  `trigger_price = none` models the key being
absent (it is only inserted for SL orders). -/
structure OrderPayload where
  security_id : ℤ
  exchange_segment : String
  transaction_type : String
  order_type : String
  quantity : ℤ
  product_type : String
  price : ℚ
  after_market_order : Bool
  disclosed_quantity : ℤ
  validity : String
  trigger_price : Option ℚ
deriving DecidableEq

/-- `create_order_payload` (`core_logic.py` lines 254-293).  A falsy
`security_id` raises `ValueError`; `x or 0` on the optional price
fields coincides with `Option.getD 0`. -/
def create_order_payload (dh : DhanConsts) (form_data : OrderFormData)
    (security_id : ℤ) : PyResult OrderPayload :=
  let symbol := pyStrUpper (pyStrip form_data.symbol)
  let order_type := pyStrUpper form_data.order_type
  let transaction_type := pyStrUpper form_data.transaction_type
  let product_type := pyStrUpper form_data.productType
  let qty := form_data.qty
  let qty := if transaction_type = "BUY" then |qty| else qty
  let limit_price := form_data.limit_price.getD 0
  let trigger_price := form_data.trigger_price.getD 0
  if security_id = 0 then
    .exn (.valueError ("Symbol " ++ symbol ++ " not found"))
  else
    .ok {
      security_id := security_id
      exchange_segment := dh.NSE
      transaction_type :=
        if transaction_type = "BUY" then dh.BUY
        else if transaction_type = "SELL" then dh.SELL
        else dh.BUY
      order_type :=
        if order_type = "MARKET" then dh.MARKET
        else if order_type = "LIMIT" then dh.LIMIT
        else if order_type = "SL" then dh.SL
        else dh.MARKET
      quantity := qty
      product_type :=
        if product_type = "INTRADAY" then dh.INTRA
        else if product_type = "CNC" then dh.CNC
        else if product_type = "MARGIN" then dh.MARGIN
        else dh.INTRA
      price := if order_type = "LIMIT" ∨ order_type = "SL" then limit_price
               else 0
      after_market_order := false
      disclosed_quantity := 0
      validity := "DAY"
      trigger_price := if order_type = "SL" then some trigger_price else none }

/-- The `form_data` dict `place_order` assembles for the payload
builder (`core_logic.py` lines 313-321). -/
def place_order_form_data (symbol action : String) (qty : ℤ) (price : ℚ)
    (productType order_type : String) (trigger_price : ℚ) : OrderFormData :=
  { symbol := symbol, transaction_type := action, qty := qty,
    productType := productType, order_type := order_type,
    limit_price := some price, trigger_price := some trigger_price }

/-! Concrete fixtures used by witnesses and counterexamples. -/

/-- Empty caches, broker reports an available balance of 100. -/
def envBal100 : SizerEnv :=
  ⟨fun _ => none, fun _ => none, .resp ⟨some 100, none⟩⟩

/-- Empty caches, broker reports a negative available balance. -/
def envNegFund : SizerEnv :=
  ⟨fun _ => none, fun _ => none, .resp ⟨some (-7/2), none⟩⟩

/-- Intraday leverage 2 for instrument 1, balance 100. -/
def envLev2 : SizerEnv :=
  ⟨fun i => if i = 1 then some 2 else none, fun _ => none,
   .resp ⟨some 100, none⟩⟩

/-- A watchlist row already marked AUTO_BUYED. -/
def autoRow : WatchRow :=
  ⟨"ABC", 5, 0, 0, 0, 0, "", "", "AUTO_BUYED"⟩

/-- A fresh watchlist row. -/
def plainRow : WatchRow :=
  ⟨"ABC", 5, 0, 0, 0, 0, "", "", ""⟩

/-- A cache generation remembering only the stale symbol OLD. -/
def stOld : Caches := ⟨[("OLD", 1)], fun _ => none, fun _ => none⟩

/-- A current primary table containing only the symbol NEW. -/
def primNew : List MapRow := [⟨"NEW", some 2, .missing, .missing⟩]

/-- 1500 instrument ids. -/
def ids1500 : List ℤ := List.replicate 1500 0

/-- A provider that serves full batches of 1000 and fails on others. -/
def provider9 : List ℤ → PyResult (List (ℤ × LiveQuoteData)) :=
  fun batch =>
    if batch.length = 1000 then .ok [] else .exn (.valueError "boom")

/-- A concrete instantiation of the provider constants. -/
def consts0 : DhanConsts :=
  ⟨"BUY", "SELL", "MARKET", "LIMIT", "STOP_LOSS", "INTRADAY", "CNC",
   "MARGIN", "NSE_EQ"⟩

/-- The form data of `submit("INFY", "SELL", 10, 1500.0, "INTRADAY",
"MARKET", 0)`. -/
def fdMarket : OrderFormData :=
  place_order_form_data "INFY" "SELL" 10 1500 "INTRADAY" "MARKET" 0

/-- The payload that call produces. -/
def plMarket : OrderPayload :=
  ⟨123, "NSE_EQ", "SELL", "MARKET", 10, "INTRADAY", 0, false, 0, "DAY", none⟩

/-! Helper lemmas about the sizer. -/

lemma pyInt_le (q : ℚ) (h : 0 ≤ q) : (pyInt q : ℚ) ≤ q := by
  rw [pyInt, if_pos h]
  exact Int.floor_le q

lemma pyStrUpper_intraday : pyStrUpper "INTRADAY" = "INTRADAY" := rfl

lemma pyStrUpper_empty : pyStrUpper "" = "" := rfl

lemma sizer_ok (p e sl : ℚ) (sec_id : ℤ) (pt : Option String) (env : SizerEnv)
    (hsl : |e - sl| ≠ 0) (hp : p ≠ 0) :
    calculate_position_size_mixed (.num p) (.num e) (.num sl) sec_id pt env =
      .ok (min (pyInt (maxLossFor (pyUpperDefault pt) / |e - sl|))
               (pyInt (get_available_balance env.fundResp *
                 leverageFor (pyUpperDefault pt) sec_id env / p)),
           ((min (pyInt (maxLossFor (pyUpperDefault pt) / |e - sl|))
               (pyInt (get_available_balance env.fundResp *
                 leverageFor (pyUpperDefault pt) sec_id env / p)) : ℤ) : ℚ) *
             |e - sl|,
           ((min (pyInt (maxLossFor (pyUpperDefault pt) / |e - sl|))
               (pyInt (get_available_balance env.fundResp *
                 leverageFor (pyUpperDefault pt) sec_id env / p)) : ℤ) : ℚ) * p,
           leverageFor (pyUpperDefault pt) sec_id env,
           get_available_balance env.fundResp) := by
  simp only [calculate_position_size_mixed, pyFloat]
  rw [if_neg hsl, if_neg hp]

lemma sizer_zero_price (e sl : ℚ) (sec_id : ℤ) (pt : Option String)
    (env : SizerEnv) (hsl : |e - sl| ≠ 0) :
    calculate_position_size_mixed (.num 0) (.num e) (.num sl) sec_id pt env =
      .exn .zeroDivision := by
  simp only [calculate_position_size_mixed, pyFloat]
  rw [if_neg hsl]
  simp

/-- C1: for every call to `calculate_position_size_mixed` with numeric
price, entry and stop where entry differs from the stop, the returned
quantity satisfies `quantity * |entry - stop| <= max_loss`, where
`max_loss` is 1000 when the upper-cased product type is exactly
"INTRADAY" and 1500 otherwise. -/
theorem risk_ceiling (p e sl : ℚ) (sec_id : ℤ) (s : String) (env : SizerEnv)
    (q : ℤ) (el ex lev f : ℚ)
    (hne : e ≠ sl)
    (hres : calculate_position_size_mixed (.num p) (.num e) (.num sl) sec_id
      (some s) env = .ok (q, el, ex, lev, f)) :
    (q : ℚ) * |e - sl| ≤ if pyStrUpper s = "INTRADAY" then 1000 else 1500 := by
  have hsl : |e - sl| ≠ 0 := by
    simpa [abs_eq_zero, sub_eq_zero] using hne
  by_cases hp : p = 0
  · subst hp
    rw [sizer_zero_price e sl sec_id (some s) env hsl] at hres
    exact absurd hres (by simp)
  · rw [sizer_ok p e sl sec_id (some s) env hsl hp] at hres
    set ML := maxLossFor (pyUpperDefault (some s)) with hML
    set qbr := pyInt (ML / |e - sl|) with hqbr
    set qbf := pyInt (get_available_balance env.fundResp *
      leverageFor (pyUpperDefault (some s)) sec_id env / p) with hqbf
    obtain ⟨hq, -, -, -, -⟩ :
        min qbr qbf = q ∧
        ((min qbr qbf : ℤ) : ℚ) * |e - sl| = el ∧
        ((min qbr qbf : ℤ) : ℚ) * p = ex ∧
        leverageFor (pyUpperDefault (some s)) sec_id env = lev ∧
        get_available_balance env.fundResp = f := by
      simpa [PyResult.ok.injEq, Prod.mk.injEq] using hres
    subst hq
    have hML0 : (0 : ℚ) ≤ ML := by
      rw [hML, maxLossFor]; split <;> norm_num
    have h2 : ((min qbr qbf : ℤ) : ℚ) ≤ (qbr : ℚ) := by
      exact_mod_cast min_le_left qbr qbf
    have h3 : ((min qbr qbf : ℤ) : ℚ) * |e - sl| ≤ (qbr : ℚ) * |e - sl| :=
      mul_le_mul_of_nonneg_right h2 (abs_nonneg _)
    have h4 : (qbr : ℚ) ≤ ML / |e - sl| := by
      rw [hqbr]
      exact pyInt_le _ (div_nonneg hML0 (abs_nonneg _))
    have h5 : (qbr : ℚ) * |e - sl| ≤ ML / |e - sl| * |e - sl| :=
      mul_le_mul_of_nonneg_right h4 (abs_nonneg _)
    have h6 : ML / |e - sl| * |e - sl| = ML := div_mul_cancel₀ _ hsl
    have h8 : ML ≤ if pyStrUpper s = "INTRADAY" then 1000 else 1500 := by
      rw [hML, maxLossFor, pyUpperDefault]
      by_cases hs : s = ""
      · subst hs
        rw [if_pos rfl, pyStrUpper_intraday, pyStrUpper_empty,
          if_pos rfl, if_neg (by decide : ¬("" = "INTRADAY"))]
        norm_num
      · rw [if_neg hs]
    linarith

/-- Witness for C1 at price 1, entry 1000, stop 0, INTRADAY,
balance 100. -/
theorem risk_ceiling_witness :
    ((1 : ℤ) : ℚ) * |(1000 : ℚ) - 0| ≤
      if pyStrUpper "INTRADAY" = "INTRADAY" then 1000 else 1500 :=
  risk_ceiling 1 1000 0 0 "INTRADAY" envBal100 1 1000 1 1 100
    (by norm_num)
    (by norm_num [calculate_position_size_mixed, pyFloat, pyUpperDefault,
      pyStrUpper_intraday, maxLossFor, leverageFor, get_available_balance,
      pyOrOpt, pyTruthy, pyInt, envBal100, min_def])

/-- C2 (counterexample): with the broker reporting a balance of -7/2,
a CNC call at price 1, entry 1000, stop 0 returns quantity -3, and
-3 * 1 exceeds the effective fund -7/2 * 1: `int()` truncates toward
zero, so the fund ceiling fails for a negative fetched balance. -/
theorem fund_ceiling_cx :
    calculate_position_size_mixed (.num 1) (.num 1000) (.num 0) 0 (some "CNC")
      envNegFund = .ok (-3, -3000, -3, 1, -7/2) ∧
    ¬ ((((-3 : ℤ)) : ℚ) * 1 ≤ (-7/2) * 1) := by
  constructor
  · rw [sizer_ok 1 1000 0 0 (some "CNC") envNegFund (by norm_num) (by norm_num)]
    norm_num [pyUpperDefault, maxLossFor, leverageFor, get_available_balance,
      pyOrOpt, pyTruthy, pyInt, envNegFund, min_def, Int.ceil_eq_iff,
      (by decide : ¬(("CNC" : String) = "")),
      (show pyStrUpper "CNC" = "CNC" from rfl),
      (by decide : ¬(("CNC" : String) = "INTRADAY")),
      (by decide : ¬(("CNC" : String) = "MARGIN"))]
    norm_num [show (⌈-(7/2 : ℚ)⌉ : ℤ) = -3 from by norm_num [Int.ceil_eq_iff]]
  · norm_num

/-- C2 (amended): whenever the fetched balance and the chosen leverage
are nonnegative (as a real account balance is), a sizer call with
positive price and distinct entry/stop returns a quantity with
`quantity * price <= fund * leverage`; and a balance-fetch failure
yields fund 0 without raising. -/
theorem fund_ceiling (p e sl : ℚ) (sec_id : ℤ) (pt : Option String)
    (env : SizerEnv) (q : ℤ) (el ex lev f : ℚ)
    (hne : e ≠ sl) (hp : 0 < p)
    (hres : calculate_position_size_mixed (.num p) (.num e) (.num sl) sec_id
      pt env = .ok (q, el, ex, lev, f))
    (hf : 0 ≤ f) (hlev : 0 ≤ lev) :
    (q : ℚ) * p ≤ f * lev ∧ get_available_balance .raised = 0 := by
  have hsl : |e - sl| ≠ 0 := by simpa [abs_eq_zero, sub_eq_zero] using hne
  have hp0 : p ≠ 0 := ne_of_gt hp
  rw [sizer_ok p e sl sec_id pt env hsl hp0] at hres
  set qbr := pyInt (maxLossFor (pyUpperDefault pt) / |e - sl|) with hqbr
  set qbf := pyInt (get_available_balance env.fundResp *
    leverageFor (pyUpperDefault pt) sec_id env / p) with hqbf
  obtain ⟨hq, -, -, hlev2, hf2⟩ :
      min qbr qbf = q ∧
      ((min qbr qbf : ℤ) : ℚ) * |e - sl| = el ∧
      ((min qbr qbf : ℤ) : ℚ) * p = ex ∧
      leverageFor (pyUpperDefault pt) sec_id env = lev ∧
      get_available_balance env.fundResp = f := by
    simpa [PyResult.ok.injEq, Prod.mk.injEq] using hres
  subst hq
  refine ⟨?_, rfl⟩
  rw [← hf2, ← hlev2]
  rw [← hf2] at hf
  rw [← hlev2] at hlev
  have h1 : ((min qbr qbf : ℤ) : ℚ) ≤ (qbf : ℚ) := by
    exact_mod_cast min_le_right qbr qbf
  have h2 : ((min qbr qbf : ℤ) : ℚ) * p ≤ (qbf : ℚ) * p :=
    mul_le_mul_of_nonneg_right h1 hp.le
  have h3 : (qbf : ℚ) ≤ get_available_balance env.fundResp *
      leverageFor (pyUpperDefault pt) sec_id env / p := by
    rw [hqbf]
    exact pyInt_le _ (div_nonneg (mul_nonneg hf hlev) hp.le)
  have h4 : (qbf : ℚ) * p ≤ get_available_balance env.fundResp *
      leverageFor (pyUpperDefault pt) sec_id env / p * p :=
    mul_le_mul_of_nonneg_right h3 hp.le
  have h5 : get_available_balance env.fundResp *
      leverageFor (pyUpperDefault pt) sec_id env / p * p =
      get_available_balance env.fundResp *
      leverageFor (pyUpperDefault pt) sec_id env :=
    div_mul_cancel₀ _ hp0
  linarith

/-- Witness for the amended C2 at price 1, entry 1000, stop 0,
INTRADAY, balance 100. -/
theorem fund_ceiling_witness :
    ((1 : ℤ) : ℚ) * 1 ≤ 100 * 1 ∧ get_available_balance .raised = 0 :=
  fund_ceiling 1 1000 0 0 (some "INTRADAY") envBal100 1 1000 1 1 100
    (by norm_num) (by norm_num)
    (by norm_num [calculate_position_size_mixed, pyFloat, pyUpperDefault,
      pyStrUpper_intraday, maxLossFor, leverageFor, get_available_balance,
      pyOrOpt, pyTruthy, pyInt, envBal100, min_def])
    (by norm_num) (by norm_num)

/-- C3 (counterexample): instrument 1 has intraday leverage 2 cached,
yet a call with the unrecognized product type "CNC" uses leverage 1
(the returned leverage component), not the instrument's intraday
leverage. -/
theorem unrecognized_ptype_cx :
    calculate_position_size_mixed (.num 1) (.num 10) (.num 0) 1 (some "CNC")
      envLev2 = .ok (100, 1000, 100, 1, 100) ∧
    (envLev2.leverage_cache 1).getD 1 = 2 ∧ ¬((1 : ℚ) = 2) := by
  refine ⟨?_, by norm_num [envLev2], by norm_num⟩
  rw [sizer_ok 1 10 0 1 (some "CNC") envLev2 (by norm_num) (by norm_num)]
  norm_num [pyUpperDefault, maxLossFor, leverageFor, get_available_balance,
    pyOrOpt, pyTruthy, pyInt, envLev2, min_def,
    (by decide : ¬(("CNC" : String) = "")),
    (show pyStrUpper "CNC" = "CNC" from rfl),
    (by decide : ¬(("CNC" : String) = "INTRADAY")),
    (by decide : ¬(("CNC" : String) = "MARGIN"))]

/-- C3 (amended): for a nonempty product type whose upper-casing is
neither "INTRADAY" nor "MARGIN", the sizer uses leverage 1.0 (not the
intraday leverage) for `quantity_by_fund`, while the max-loss threshold
for `quantity_by_risk` is the non-INTRADAY value 1500. -/
theorem unrecognized_ptype (p e sl : ℚ) (sec_id : ℤ) (s : String)
    (env : SizerEnv)
    (hs0 : s ≠ "") (hs1 : pyStrUpper s ≠ "INTRADAY")
    (hs2 : pyStrUpper s ≠ "MARGIN")
    (hne : e ≠ sl) (hp : p ≠ 0) :
    calculate_position_size_mixed (.num p) (.num e) (.num sl) sec_id (some s)
      env =
    .ok (min (pyInt (1500 / |e - sl|))
             (pyInt (get_available_balance env.fundResp * 1 / p)),
         ((min (pyInt (1500 / |e - sl|))
             (pyInt (get_available_balance env.fundResp * 1 / p)) : ℤ) : ℚ) *
           |e - sl|,
         ((min (pyInt (1500 / |e - sl|))
             (pyInt (get_available_balance env.fundResp * 1 / p)) : ℤ) : ℚ) * p,
         1, get_available_balance env.fundResp) := by
  have hsl : |e - sl| ≠ 0 := by simpa [abs_eq_zero, sub_eq_zero] using hne
  rw [sizer_ok p e sl sec_id (some s) env hsl hp]
  rw [show pyUpperDefault (some s) = pyStrUpper s by
        rw [pyUpperDefault, if_neg hs0],
      maxLossFor, if_neg hs1, leverageFor, if_neg hs1, if_neg hs2]

/-- Witness for the amended C3 with product type "CNC". -/
theorem unrecognized_ptype_witness :
    calculate_position_size_mixed (.num 1) (.num 10) (.num 0) 1 (some "CNC")
      envLev2 =
    .ok (min (pyInt (1500 / |(10 : ℚ) - 0|))
             (pyInt (get_available_balance envLev2.fundResp * 1 / 1)),
         ((min (pyInt (1500 / |(10 : ℚ) - 0|))
             (pyInt (get_available_balance envLev2.fundResp * 1 / 1)) : ℤ) :
           ℚ) * |(10 : ℚ) - 0|,
         ((min (pyInt (1500 / |(10 : ℚ) - 0|))
             (pyInt (get_available_balance envLev2.fundResp * 1 / 1)) : ℤ) :
           ℚ) * 1,
         1, get_available_balance envLev2.fundResp) :=
  unrecognized_ptype 1 10 0 1 "CNC" envLev2 (by decide) (by decide)
    (by decide) (by norm_num) (by norm_num)

/-- C4: entry equal to the stop price yields quantity 0, expected loss
0 and exposure 0, without an exception: a defined edge case. -/
theorem zero_risk_edge (p e : ℚ) (sec_id : ℤ) (pt : Option String)
    (env : SizerEnv) :
    calculate_position_size_mixed (.num p) (.num e) (.num e) sec_id pt env =
      .ok (0, 0, 0, 1, get_available_balance env.fundResp) := by
  simp [calculate_position_size_mixed, pyFloat]

/-- C5: with numeric inputs, price 0 and entry differing from the stop,
the sizer raises an unhandled ZeroDivisionError at the
`quantity_by_fund` division; the conversion guard only absorbs
non-numeric inputs (second conjunct), not a zero price. -/
theorem zero_price_unhandled (e sl : ℚ) (sec_id : ℤ) (pt : Option String)
    (env : SizerEnv) (hne : e ≠ sl) :
    calculate_position_size_mixed (.num 0) (.num e) (.num sl) sec_id pt env =
      .exn .zeroDivision ∧
    calculate_position_size_mixed .nonNumeric (.num e) (.num sl) sec_id pt
      env = .ok (0, 0, 0, 1, 0) := by
  have hsl : |e - sl| ≠ 0 := by simpa [abs_eq_zero, sub_eq_zero] using hne
  exact ⟨sizer_zero_price e sl sec_id pt env hsl, rfl⟩

/-- Witness for C5 at entry 1, stop 0. -/
theorem zero_price_unhandled_witness :
    calculate_position_size_mixed (.num 0) (.num 1) (.num 0) 0 none
      envBal100 = .exn .zeroDivision ∧
    calculate_position_size_mixed .nonNumeric (.num 1) (.num 0) 0 none
      envBal100 = .ok (0, 0, 0, 1, 0) :=
  zero_price_unhandled 1 0 0 none envBal100 (by norm_num)

/-! Helper lemmas about the reconciler's per-row update. -/

lemma updateWatchRow_action_sticky (now : String) (q : QuoteFields)
    (row : WatchRow) (ha : row.Action = "AUTO_BUYED") :
    (updateWatchRow now q row).Action = "AUTO_BUYED" := by
  simp [updateWatchRow, ha]

lemma updateWatchRow_breakout (now : String) (q : QuoteFields)
    (row : WatchRow) :
    (updateWatchRow now q row).Breakout =
      (if row.entryPrice < q.LTP then "YES" else "NO") ∧
    (updateWatchRow now q row).LTP = q.LTP ∧
    (updateWatchRow now q row).entryPrice = row.entryPrice := by
  rw [updateWatchRow]
  split <;> split <;> simp_all

/-- C6: a row whose Action is AUTO_BUYED before a reconciliation pass
still has Action AUTO_BUYED afterwards, for every combination of
live-quote data, LTP and entry price; so repeated passes never change
it back to BUY or empty. -/
theorem sticky_auto_buy (now : String) (mapping : String → Option ℤ)
    (live_data : Option (ℤ → Option LiveQuoteData)) (data : List WatchRow)
    (i : ℕ) (h : i < data.length)
    (ha : (data.get ⟨i, h⟩).Action = "AUTO_BUYED") :
    ((update_quotes_and_breakouts now mapping live_data data).get
      ⟨i, by simpa [update_quotes_and_breakouts] using h⟩).Action =
      "AUTO_BUYED" := by
  have hg : (update_quotes_and_breakouts now mapping live_data data).get
      ⟨i, by simpa [update_quotes_and_breakouts] using h⟩ =
      updateWatchRow now
        (fetch_live_quote mapping live_data (data.get ⟨i, h⟩).stockName)
        (data.get ⟨i, h⟩) := by
    simp [update_quotes_and_breakouts, List.get_eq_getElem, List.getElem_map]
  rw [hg]
  exact updateWatchRow_action_sticky _ _ _ ha

/-- Witness for C6 on a one-row watchlist already marked AUTO_BUYED. -/
theorem sticky_auto_buy_witness :
    ((update_quotes_and_breakouts "09:20:00" (fun _ => none) none
      [autoRow]).get ⟨0, by simp [update_quotes_and_breakouts]⟩).Action =
      "AUTO_BUYED" :=
  sticky_auto_buy "09:20:00" (fun _ => none) none [autoRow] 0
    (by decide) (by decide)

/-- C7: after a reconciliation pass, a row's Breakout field is "YES"
exactly when its LTP is strictly greater than its entry price; in
particular an LTP equal to the entry price yields "NO". -/
theorem breakout_boundary (now : String) (mapping : String → Option ℤ)
    (live_data : Option (ℤ → Option LiveQuoteData)) (data : List WatchRow)
    (r : WatchRow)
    (hr : r ∈ update_quotes_and_breakouts now mapping live_data data) :
    r.Breakout = "YES" ↔ r.entryPrice < r.LTP := by
  rw [update_quotes_and_breakouts] at hr
  obtain ⟨row, -, rfl⟩ := List.mem_map.mp hr
  obtain ⟨hb, hl, he⟩ := updateWatchRow_breakout now
    (fetch_live_quote mapping live_data row.stockName) row
  rw [hb, hl, he]
  by_cases hlt : row.entryPrice <
      (fetch_live_quote mapping live_data row.stockName).LTP
  · simp [hlt]
  · simp [hlt]

/-- Witness for C7 on a one-row watchlist with no live data. -/
theorem breakout_boundary_witness :
    (updateWatchRow "09:20:00"
        (fetch_live_quote (fun _ => none) none plainRow.stockName)
        plainRow).Breakout = "YES" ↔
    (updateWatchRow "09:20:00"
        (fetch_live_quote (fun _ => none) none plainRow.stockName)
        plainRow).entryPrice <
      (updateWatchRow "09:20:00"
        (fetch_live_quote (fun _ => none) none plainRow.stockName)
        plainRow).LTP :=
  breakout_boundary "09:20:00" (fun _ => none) none [plainRow] _
    (by simp [update_quotes_and_breakouts])

/-! Helper lemmas about the mapping-cache build. -/

lemma oalt_assoc {α : Type} (a b c : Option α) :
    oalt (oalt a b) c = oalt a (oalt b c) := by
  cases a <;> simp [oalt]

lemma oalt_none_right {α : Type} (a : Option α) : oalt a none = a := by
  cases a <;> simp [oalt]

lemma dlookup_cons (k : String) (v : ℤ) (m : List (String × ℤ)) (s : String) :
    dlookup ((k, v) :: m) s = if k = s then some v else dlookup m s := by
  by_cases h : k = s
  · subst h
    simp [dlookup, List.find?]
  · have hb : (k == s) = false := beq_eq_false_iff_ne.mpr h
    simp [dlookup, List.find?, hb, h]

lemma dlookup_key_cons (kk : String) (inst : ℤ) (m : List (String × ℤ))
    (s : String) :
    dlookup ((kk, inst) :: m) s =
      oalt (if kk = s then some inst else none) (dlookup m s) := by
  rw [dlookup_cons]
  by_cases h : kk = s <;> simp [h, oalt]

lemma processPrimaryRow_mapping (st : Caches) (r : MapRow) (s : String) :
    dlookup (processPrimaryRow st r).mapping s =
      oalt (writeOf r s) (dlookup st.mapping s) := by
  rw [processPrimaryRow, writeOf]
  cases hid : r.instrumentId with
  | none => simp [oalt]
  | some inst =>
    cases h1 : parseCell r.misLeverage 1 with
    | none => simp [h1, dlookup_key_cons]
    | some mval =>
      cases h2 : parseCell r.mtfLeverage mval <;> simp [h1, h2, dlookup_key_cons]

lemma foldl_primary (rows : List MapRow) (st : Caches) (s : String) :
    dlookup ((rows.foldl processPrimaryRow st).mapping) s =
      oalt (lastWrite rows s) (dlookup st.mapping s) := by
  induction rows generalizing st with
  | nil => simp [lastWrite, oalt]
  | cons r rs ih =>
    rw [List.foldl_cons, ih, processPrimaryRow_mapping, lastWrite, oalt_assoc]

lemma processMasterRow_mapping (st : Caches) (r : MapRow) (s : String) :
    dlookup (processMasterRow st r).mapping s =
      oalt (dlookup st.mapping s) (writeOf r s) := by
  rw [processMasterRow]
  cases ho : dlookup st.mapping (keyOf r) with
  | some v =>
    simp only [Option.isSome_some, eq_self_iff_true, if_true]
    by_cases hks : keyOf r = s
    · subst hks
      rw [ho]
      simp [oalt]
    · rw [writeOf, if_neg hks, oalt_none_right]
  | none =>
    simp only [Option.isSome_none, Bool.false_eq_true, if_false]
    rw [processPrimaryRow_mapping]
    by_cases hks : keyOf r = s
    · subst hks
      rw [ho, oalt_none_right]
      simp [oalt]
    · rw [writeOf, if_neg hks, oalt_none_right]
      simp [oalt]

lemma foldl_master (rows : List MapRow) (st : Caches) (s : String) :
    dlookup ((rows.foldl processMasterRow st).mapping) s =
      oalt (dlookup st.mapping s) (firstWrite rows s) := by
  induction rows generalizing st with
  | nil => simp [firstWrite, oalt_none_right]
  | cons r rs ih =>
    rw [List.foldl_cons, ih, processMasterRow_mapping, firstWrite, oalt_assoc]

/-- C8 (counterexample): a forced reload does not rebuild the mapping
cache wholesale.  With a previous generation holding only OLD and
current tables holding only NEW (primary) and nothing (fallback), the
stale entry OLD survives `build_mapping_caches(force_reload=True)` even
though OLD is in neither current table. -/
theorem wholesale_rebuild_cx :
    dlookup ((build_mapping_caches true (some primNew) (some [])
        stOld).mapping) "OLD" = some 1 ∧
    (∀ r ∈ primNew, keyOf r ≠ "OLD") := by
  constructor
  · decide
  · decide

/-- C8 (amended): after `build_mapping_caches(force_reload=True)`, a
symbol resolves to the last valid write of the current primary table if
present there, otherwise to its entry in the previous cache generation
if it had one, otherwise to the first valid write of the current
fallback table: primary wins on collision, but entries of the previous
generation survive a forced reload and also shadow the fallback
table. -/
theorem forced_reload_merge (prim mast : List MapRow) (st : Caches)
    (s : String) :
    dlookup ((build_mapping_caches true (some prim) (some mast) st).mapping)
        s =
      oalt (lastWrite prim s)
        (oalt (dlookup st.mapping s) (firstWrite mast s)) := by
  have hcond : (!st.mapping.isEmpty && !true) = false := by simp
  rw [build_mapping_caches, hcond]
  simp only [Bool.false_eq_true, if_false]
  rw [foldl_master, foldl_primary, oalt_assoc]

/-! Helper lemmas about batched quote fetching. -/

lemma batch_list_eq_pair {α : Type} (l : List α) (h : l.length = 1500) :
    batch_list l 1000 = [l.take 1000, l.drop 1000] := by
  have hne : l ≠ [] := by
    intro hl
    rw [hl] at h
    simp at h
  have h2 : (l.drop 1000).length = 500 := by simp [List.length_drop, h]
  have hne2 : l.drop 1000 ≠ [] := by
    intro hl
    rw [hl] at h2
    simp at h2
  have h3 : (l.drop 1000).drop 1000 = [] := by
    apply List.drop_eq_nil_of_le
    rw [h2]
    norm_num
  rw [batch_list, dif_neg (by simp [List.isEmpty_iff, hne])]
  congr 1
  rw [batch_list, dif_neg (by simp [List.isEmpty_iff, hne2])]
  rw [List.take_of_length_le (by rw [h2]; norm_num), h3]
  rw [batch_list, dif_pos (by simp)]

lemma foldl_upd_lookup (qs : List (ℤ × LiveQuoteData))
    (m : ℤ → Option LiveQuoteData) (i : ℤ)
    (hno : ∀ kv ∈ qs, kv.1 ≠ i) :
    (qs.foldl (fun m kv => upd m kv.1 kv.2) m) i = m i := by
  induction qs generalizing m with
  | nil => rfl
  | cons kv kvs ih =>
    rw [List.foldl_cons, ih _ (fun x hx => hno x (List.mem_cons_of_mem _ hx))]
    rw [upd, if_neg (fun hik => hno kv (List.mem_cons_self _ _) hik.symm)]

/-- C9: over 1500 instrument ids split into batches of at most 1000,
if the provider call for the second batch raises, `fetch_live_data`
returns exactly the quotes of the first batch, the second batch's ids
are absent from the result, and no exception propagates (the function
is total). -/
theorem second_batch_failure (ids : List ℤ)
    (provider : List ℤ → PyResult (List (ℤ × LiveQuoteData)))
    (qs : List (ℤ × LiveQuoteData)) (err : PyError)
    (hlen : ids.length = 1500)
    (h1 : provider (ids.take 1000) = .ok qs)
    (h2 : provider (ids.drop 1000) = .exn err) :
    fetch_live_data true provider ids =
      qs.foldl (fun m kv => upd m kv.1 kv.2) (fun _ => none) ∧
    ∀ i ∈ ids.drop 1000, (∀ kv ∈ qs, kv.1 ≠ i) →
      fetch_live_data true provider ids i = none := by
  have hb : batch_list ids 1000 = [ids.take 1000, ids.drop 1000] :=
    batch_list_eq_pair ids hlen
  have hfd : fetch_live_data true provider ids =
      qs.foldl (fun m kv => upd m kv.1 kv.2) (fun _ => none) := by
    simp only [fetch_live_data, eq_self_iff_true, if_true]
    rw [hb]
    simp only [List.foldl_cons, List.foldl_nil]
    rw [h1, h2]
  refine ⟨hfd, fun i _ hno => ?_⟩
  rw [hfd]
  exact foldl_upd_lookup qs _ i hno

/-- Witness for C9: 1500 ids, provider succeeding with an empty quote
set on full batches of 1000 and failing otherwise. -/
theorem second_batch_failure_witness :
    fetch_live_data true provider9 ids1500 =
      List.foldl
        (fun (m : ℤ → Option LiveQuoteData) (kv : ℤ × LiveQuoteData) =>
          upd m kv.1 kv.2)
        (fun _ => none) [] :=
  (second_batch_failure ids1500 provider9 [] (.valueError "boom")
    (by rw [ids1500, List.length_replicate])
    (by rw [ids1500, List.take_replicate]
        simp only [provider9, List.length_replicate]
        norm_num)
    (by rw [ids1500, List.drop_replicate]
        simp only [provider9, List.length_replicate]
        norm_num)).1

/-- C10: a payload built without an exception carries the limit price
only for LIMIT and SL order types (0 otherwise, in particular for
MARKET) and contains a trigger_price key only for SL. -/
theorem order_payload_shape (dh : DhanConsts) (fd : OrderFormData) (sid : ℤ)
    (pl : OrderPayload)
    (hres : create_order_payload dh fd sid = .ok pl) :
    pl.price = (if pyStrUpper fd.order_type = "LIMIT" ∨
        pyStrUpper fd.order_type = "SL" then fd.limit_price.getD 0 else 0) ∧
    pl.trigger_price = (if pyStrUpper fd.order_type = "SL"
        then some (fd.trigger_price.getD 0) else none) := by
  simp only [create_order_payload] at hres
  by_cases hs : sid = 0
  · rw [if_pos hs] at hres
    exact absurd hres (by simp)
  · rw [if_neg hs] at hres
    injection hres with h
    subst h
    exact ⟨rfl, rfl⟩

/-- Witness for C10 at the MARKET example of the claim. -/
theorem order_payload_shape_witness :
    plMarket.price = (if pyStrUpper fdMarket.order_type = "LIMIT" ∨
        pyStrUpper fdMarket.order_type = "SL"
      then fdMarket.limit_price.getD 0 else 0) ∧
    plMarket.trigger_price = (if pyStrUpper fdMarket.order_type = "SL"
      then some (fdMarket.trigger_price.getD 0) else none) :=
  order_payload_shape consts0 fdMarket 123 plMarket (by decide)

end ViewTrading
